import Mathlib

/-!
Verification development for the omnivara-dashboard signal P&L engine.

The definitions below are shallow embeddings of the two source modules that
implement the computational core:

* `src/optimize_exit_strategy.py` — `StrategyOptimizer.calculate_signal_profit`,
  `StrategyOptimizer.generate_strategies`, and the improvement-over-baseline
  expression from `StrategyOptimizer.optimize` (line 291);
* `src/dashboard_backend.py` — the per-row evaluation inside
  `get_signal_history_fallback` (lines 800-988): risk mapping, pip-multiplier
  table, stop-loss and take-profit outcome handling and the `tp_breakdown`
  list.

Python floats are modelled as rationals (`ℚ`), numeric rounding
(`round(x, d)`) as `roundTo`, nullable database columns as `Option ℚ`
(with Python truthiness of `None`/`0.0` captured by `truthyQ`), and the
`'needle' in haystack` substring test by `strContains` on character lists.
-/

/-- Python rounding `round(x, d)` modelled on rationals (round to nearest,
halves up; CPython rounds exact halves to even instead, which differs only
at exact half-ulp values that none of the statements below depend on). -/
def roundTo (d : ℕ) (q : ℚ) : ℚ :=
  ((⌊q * (10 : ℚ) ^ d + 1/2⌋ : ℤ) : ℚ) / (10 : ℚ) ^ d

/-- Does `needle` occur at the head of the second list? (Helper for the
Python substring test `needle in haystack`.) -/
def listStarts : List Char → List Char → Bool
  | [], _ => true
  | _ :: _, [] => false
  | a :: as, b :: bs => a == b && listStarts as bs

/-- Does `needle` occur anywhere in the second list? -/
def listHasSub (needle : List Char) : List Char → Bool
  | [] => needle.isEmpty
  | b :: bs => listStarts needle (b :: bs) || listHasSub needle bs

/-- Python's substring containment test `needle in hay` on strings. -/
def strContains (hay needle : String) : Bool := listHasSub needle.data hay.data

/-- Python truthiness of a nullable float column: `None` and `0.0` are falsy. -/
def truthyQ (o : Option ℚ) : Bool :=
  match o with
  | none => false
  | some x => decide (x ≠ 0)

/-- Value of a nullable float column when it is used in arithmetic
(the source only does so under a truthiness guard, so the default is
never observable). -/
def optVal (o : Option ℚ) : ℚ :=
  match o with
  | none => 0
  | some x => x

/-- Python `max(tp_hits) if tp_hits else 0` (source: both modules derive
`highest_tp` this way from the list of announced TP levels). -/
def highestTp : List ℕ → ℕ
  | [] => 0
  | a :: rest => List.foldl Nat.max a rest

/-- Pip multiplier table of `get_signal_history_fallback`
(`src/dashboard_backend.py` lines 835-845 and the identical copy at lines
866-876): gold 0.10, Bitcoin 1.0, Nasdaq-100 1.0, JPY pairs 0.01,
all other symbols 0.0001, tested in that order by substring match. -/
def pip_multiplier (symbol : String) : ℚ :=
  if strContains symbol "XAU" || strContains symbol "GOLD" then 1/10
  else if strContains symbol "BTC" || strContains symbol "BITCOIN" then 1
  else if strContains symbol "NAS" || strContains symbol "US100" || strContains symbol "NDX" then 1
  else if strContains symbol "JPY" then 1/100
  else 1/10000

/-- Hardcoded stop-loss pip estimates used when the stop-loss price is
unavailable (`src/dashboard_backend.py` lines 853-862). -/
def slEstimate (symbol : String) : ℚ :=
  if strContains symbol "XAU" || strContains symbol "GOLD" then -30
  else if strContains symbol "BTC" || strContains symbol "BITCOIN" then -400
  else if strContains symbol "NAS" || strContains symbol "US100" || strContains symbol "NDX" then -75
  else -30

/-- Risk mapping of `get_signal_history_fallback` (lines 820-827):
falsy `risk_level` is replaced by `'MEDIUM'`, then `'LOW' → 1.0`,
`'HIGH' → 3.0`, anything else `2.0`. -/
def riskPercentRow (risk_level : Option String) : ℚ :=
  let rl := match risk_level with
    | none => "MEDIUM"
    | some s => if s = "" then "MEDIUM" else s
  if rl = "LOW" then 1
  else if rl = "HIGH" then 3
  else 2

/-- Risk mapping of `calculate_signal_profit`
(`{'LOW': 1, 'MEDIUM': 2, 'HIGH': 3}.get(risk_level, 2)`,
`src/optimize_exit_strategy.py` lines 82 and 91). -/
def riskPercentOpt (rl : Option String) : ℚ :=
  if rl = some "LOW" then 1
  else if rl = some "MEDIUM" then 2
  else if rl = some "HIGH" then 3
  else 2

/-- Signal record as consumed by `StrategyOptimizer.calculate_signal_profit`.
`load_signals` selects rows with `entry_price IS NOT NULL`, so the entry
price is a plain rational; the TP columns are nullable. `tps_hit` is the
list of announced TP levels. -/
structure OptSignal where
  entry_price : ℚ
  risk_level : Option String
  tp1 : Option ℚ
  tp2 : Option ℚ
  tp3 : Option ℚ
  tp4 : Option ℚ
  tp5 : Option ℚ
  tp6 : Option ℚ
  tps_hit : List ℕ

/-- Python `signal.get(f'tp{n}')`: the six TP fields, `None` for any other
index. -/
def optTp (s : OptSignal) (n : ℕ) : Option ℚ :=
  match n with
  | 1 => s.tp1
  | 2 => s.tp2
  | 3 => s.tp3
  | 4 => s.tp4
  | 5 => s.tp5
  | 6 => s.tp6
  | _ => none

/-- `StrategyOptimizer.calculate_signal_profit`
(`src/optimize_exit_strategy.py` lines 66-116): stop-loss outcome returns
`-risk_percent`; zero entry price returns 0; otherwise each hit level with
a truthy TP price contributes
`(|tp - entry| / entry * 100 * 500) * strategy[i] * (risk_percent / 100)`. -/
def calculate_signal_profit (signal : OptSignal) (strategy : List ℚ) : ℚ :=
  let highest_tp := highestTp signal.tps_hit
  if highest_tp = 0 then
    -(riskPercentOpt signal.risk_level)
  else
    let entry_price := signal.entry_price
    if entry_price = 0 then 0
    else
      let risk_percent := riskPercentOpt signal.risk_level
      (List.range highest_tp).foldl
        (fun total_profit i =>
          match optTp signal (i + 1) with
          | none => total_profit
          | some tpv =>
            if tpv = 0 then total_profit
            else
              let price_move := |tpv - entry_price|
              let price_move_percent := price_move / entry_price * 100
              let leveraged_move := price_move_percent * 500
              let strategy_percent := strategy.getD i 0
              let tp_profit := leveraged_move * strategy_percent * (risk_percent / 100)
              total_profit + tp_profit)
        0

/-- The improvement-over-baseline expression of `StrategyOptimizer.optimize`
(line 291): `((pl - baseline_pl) / abs(baseline_pl) * 100) if baseline_pl != 0 else 0`. -/
def improvement (pl baseline_pl : ℚ) : ℚ :=
  if baseline_pl ≠ 0 then (pl - baseline_pl) / |baseline_pl| * 100 else 0

/-- The default strategy `[0.5, 0.2, 0.1, 0.1, 0.1, 0.0]`
(`src/optimize_exit_strategy.py` line 228). -/
def default_strategy : List ℚ := [1/2, 1/5, 1/10, 1/10, 1/10, 0]

/-- Python `list(range(0, 101, step))` (line 173): the candidate integer
percentages. For `step ≥ 1` this list has `100 / step + 1` elements. -/
def percentages (step : ℕ) : List ℕ := (List.range (100 / step + 1)).map (· * step)

/-- `StrategyOptimizer.generate_strategies`
(`src/optimize_exit_strategy.py` lines 159-204): nested loops over the
candidate percentages keeping exactly the combinations whose percentages
sum to 100; with `include_tp6 = False` the sixth slot is fixed at `0.0`. -/
def generate_strategies (step : ℕ) (include_tp6 : Bool) : List (List ℚ) :=
  let ps := percentages step
  if include_tp6 = false then
    ps.flatMap fun tp1 =>
      ps.flatMap fun tp2 =>
        ps.flatMap fun tp3 =>
          ps.flatMap fun tp4 =>
            ps.flatMap fun tp5 =>
              if tp1 + tp2 + tp3 + tp4 + tp5 = 100 then
                [[(tp1 : ℚ)/100, (tp2 : ℚ)/100, (tp3 : ℚ)/100,
                  (tp4 : ℚ)/100, (tp5 : ℚ)/100, (0 : ℚ)]]
              else []
  else
    ps.flatMap fun tp1 =>
      ps.flatMap fun tp2 =>
        ps.flatMap fun tp3 =>
          ps.flatMap fun tp4 =>
            ps.flatMap fun tp5 =>
              ps.flatMap fun tp6 =>
                if tp1 + tp2 + tp3 + tp4 + tp5 + tp6 = 100 then
                  [[(tp1 : ℚ)/100, (tp2 : ℚ)/100, (tp3 : ℚ)/100,
                    (tp4 : ℚ)/100, (tp5 : ℚ)/100, (tp6 : ℚ)/100]]
                else []

/-- Database row consumed by the per-row loop of
`get_signal_history_fallback` (fields selected at
`src/dashboard_backend.py` lines 758-766). `tp_hits` is the already-parsed
list of announced TP levels (the comma-string parse at line 802 is
plumbing). -/
structure HistoryRow where
  symbol : String
  action : String
  entry_price : Option ℚ
  stop_loss : Option ℚ
  tp1 : Option ℚ
  tp2 : Option ℚ
  tp3 : Option ℚ
  tp4 : Option ℚ
  tp5 : Option ℚ
  tp6 : Option ℚ
  risk_level : Option String
  tp_hits : List ℕ

/-- Lookup `row[f'tp{n}']` for `n ∈ [1,6]` (for other `n` the Python row
lookup would raise; theorems about rows therefore carry the data-model
bound `tp` levels `≤ 6`). -/
def rowTp (r : HistoryRow) (n : ℕ) : Option ℚ :=
  match n with
  | 1 => r.tp1
  | 2 => r.tp2
  | 3 => r.tp3
  | 4 => r.tp4
  | 5 => r.tp5
  | 6 => r.tp6
  | _ => none

/-- Signed pip distance (`src/dashboard_backend.py` lines 848-851, 879-882,
928-931): BUY exits minus entry, otherwise entry minus exit, divided by the
pip multiplier. -/
def dashPips (action : String) (exit_v entry_v pm : ℚ) : ℚ :=
  if action = "BUY" then (exit_v - entry_v) / pm else (entry_v - exit_v) / pm

/-- One row of the `tp_breakdown` list (lines 955-961). -/
structure TpBreakdownRow where
  tp_level : ℕ
  price : ℚ
  pips : ℚ
  partial_exit_percent : ℤ
  profit_percent : ℚ

/-- Partial exit fraction per TP level used by the breakdown loop
(lines 937-951). -/
def partialExitFrac (has_tp6 : Bool) (tp_level : ℕ) : ℚ :=
  if tp_level = 1 then 1/2
  else if tp_level = 2 then 1/5
  else if tp_level = 3 then 1/10
  else if tp_level = 4 then 1/10
  else if tp_level = 5 then (if has_tp6 then 1/20 else 1/10)
  else if tp_level = 6 then 1/20
  else 0

/-- The `tp_breakdown` loop of `get_signal_history_fallback`
(lines 918-961): one entry per level `1..highest_tp` whose TP price is
truthy, carrying the rounded price, pip distance, exit fraction and the
level's partial profit contribution. -/
def breakdownRows (r : HistoryRow) (highest_tp : ℕ) (exit_price : Option ℚ)
    (risk_percent pip_mult : ℚ) : List TpBreakdownRow :=
  let has_tp6 := r.tp6.isSome
  let en := optVal r.entry_price
  ((List.range highest_tp).map (· + 1)).filterMap fun tp_level =>
    match rowTp r tp_level with
    | none => none
    | some tp_price =>
      if tp_price = 0 then none
      else
        let tp_pips : ℚ :=
          if truthyQ exit_price && truthyQ r.entry_price then
            dashPips r.action tp_price en pip_mult
          else 0
        let tp_price_move : ℚ :=
          if truthyQ r.entry_price then |tp_price - en| / en * 100 else 0
        let tp_leveraged_move := tp_price_move * 500
        let partial_exit := partialExitFrac has_tp6 tp_level
        let tp_profit := tp_leveraged_move * partial_exit * (risk_percent / 100)
        some { tp_level := tp_level
               price := roundTo (if strContains r.symbol "JPY" then 3 else 2) tp_price
               pips := roundTo 1 tp_pips
               partial_exit_percent := Int.floor (partial_exit * 100)
               profit_percent := roundTo 2 tp_profit }

/-- Per-signal evaluation result assembled at lines 963-987. -/
structure SignalEval where
  outcome : String
  exit_price : Option ℚ
  pips : ℚ
  profit_percent : ℚ
  tp_breakdown : List TpBreakdownRow

/-- The per-row evaluation of `get_signal_history_fallback`
(`src/dashboard_backend.py` lines 801-987): outcome selection, risk
mapping, pip and profit computation for stop-loss and take-profit
outcomes, and the per-level breakdown. -/
def processRow (r : HistoryRow) : SignalEval :=
  let highest_tp := highestTp r.tp_hits
  let exit_price := if highest_tp = 0 then r.stop_loss else rowTp r highest_tp
  let outcome := if highest_tp = 0 then "SL Hit" else "TP" ++ toString highest_tp ++ " Hit"
  let risk_percent := riskPercentRow r.risk_level
  let pip_mult := pip_multiplier r.symbol
  let en := optVal r.entry_price
  let ex := optVal exit_price
  let pipsRaw : ℚ :=
    if highest_tp = 0 then
      if truthyQ exit_price && truthyQ r.entry_price then
        dashPips r.action ex en pip_mult
      else slEstimate r.symbol
    else
      if truthyQ exit_price && truthyQ r.entry_price then
        dashPips r.action ex en pip_mult
      else 0
  let profitRaw : ℚ :=
    if highest_tp = 0 then
      -risk_percent
    else if truthyQ exit_price && truthyQ r.entry_price then
      let price_move_percent := |ex - en| / en * 100
      let leveraged_move := price_move_percent * 500
      let has_tp6 := r.tp6.isSome
      if highest_tp = 1 then leveraged_move * (1/2) * (risk_percent / 100)
      else if highest_tp = 2 then leveraged_move * (7/10) * (risk_percent / 100)
      else if highest_tp = 3 then leveraged_move * (4/5) * (risk_percent / 100)
      else if highest_tp = 4 then leveraged_move * (9/10) * (risk_percent / 100)
      else if highest_tp = 5 then
        if has_tp6 then leveraged_move * (19/20) * (risk_percent / 100)
        else leveraged_move * (risk_percent / 100)
      else leveraged_move * (risk_percent / 100)
    else 0
  { outcome := outcome
    exit_price := exit_price
    pips := if pipsRaw = 0 then 0 else roundTo 1 pipsRaw
    profit_percent := if profitRaw = 0 then 0 else roundTo 2 profitRaw
    tp_breakdown := breakdownRows r highest_tp exit_price risk_percent pip_mult }

/-- Instrument classification, modelled from the spec's pip-sizing rule
(§4.1: gold-family, Bitcoin-family, Nasdaq-100-family, JPY-quoted pairs,
all other symbols, checked in this priority order by substring match). -/
inductive InstrumentClass where
  | metal
  | crypto
  | index
  | jpyForex
  | otherForex

/-- Spec-side classifier (§4.1 / §9): priority-ordered substring match on
the symbol name. -/
def classify (symbol : String) : InstrumentClass :=
  if strContains symbol "XAU" || strContains symbol "GOLD" then .metal
  else if strContains symbol "BTC" || strContains symbol "BITCOIN" then .crypto
  else if strContains symbol "NAS" || strContains symbol "US100" || strContains symbol "NDX" then .index
  else if strContains symbol "JPY" then .jpyForex
  else .otherForex

/-- Spec-side pip-size table (§4.1): metals 0.10, crypto 1.0, index 1.0,
JPY-quoted 0.01, other 0.0001. -/
def pipSize : InstrumentClass → ℚ
  | .metal => 1/10
  | .crypto => 1
  | .index => 1
  | .jpyForex => 1/100
  | .otherForex => 1/10000

/-! ## Helper lemmas -/

lemma roundTo_zero (d : ℕ) : roundTo d 0 = 0 := by
  norm_num [roundTo]

lemma roundTo_nonneg (d : ℕ) (q : ℚ) (h : 0 ≤ q) : 0 ≤ roundTo d q := by
  unfold roundTo
  apply div_nonneg _ (by positivity)
  have hz : (0 : ℤ) ≤ ⌊q * (10 : ℚ) ^ d + 1/2⌋ := by
    refine Int.floor_nonneg.mpr ?_
    have : (0 : ℚ) ≤ q * (10 : ℚ) ^ d := by positivity
    linarith
  exact_mod_cast hz

lemma riskPercentRow_cases (rl : Option String) :
    riskPercentRow rl = 1 ∨ riskPercentRow rl = 2 ∨ riskPercentRow rl = 3 := by
  cases rl with
  | none => simp [riskPercentRow]
  | some s =>
    by_cases h0 : s = "" <;>
      simp only [riskPercentRow, h0, if_true, if_false] <;>
      split_ifs <;> simp

lemma riskPercentOpt_cases (rl : Option String) :
    riskPercentOpt rl = 1 ∨ riskPercentOpt rl = 2 ∨ riskPercentOpt rl = 3 := by
  unfold riskPercentOpt
  split_ifs <;> simp

lemma riskPercentRow_pos (rl : Option String) : 0 < riskPercentRow rl := by
  rcases riskPercentRow_cases rl with h | h | h <;> rw [h] <;> norm_num

lemma riskPercentOpt_pos (rl : Option String) : 0 < riskPercentOpt rl := by
  rcases riskPercentOpt_cases rl with h | h | h <;> rw [h] <;> norm_num

lemma truthyQ_iff (o : Option ℚ) : truthyQ o = true ↔ ∃ x, o = some x ∧ x ≠ 0 := by
  cases o with
  | none => simp [truthyQ]
  | some x => simp [truthyQ]

lemma truthyQ_optVal_ne_zero (o : Option ℚ) (h : truthyQ o = true) : optVal o ≠ 0 := by
  rcases (truthyQ_iff o).mp h with ⟨x, rfl, hx⟩
  simpa [optVal] using hx

lemma getD_nonneg (l : List ℚ) (h : ∀ f ∈ l, 0 ≤ f) (i : ℕ) : 0 ≤ l.getD i 0 := by
  rw [List.getD_eq_getElem?_getD]
  cases hx : l[i]? with
  | none => simp
  | some x =>
    simpa using h x (List.getElem?_mem hx)

lemma foldl_shift_of_eq (F : ℚ → ℕ → ℚ) (g : ℕ → ℚ) (hF : ∀ acc i, F acc i = acc + g i)
    (l : List ℕ) (init : ℚ) : l.foldl F init = init + (l.map g).sum := by
  induction l generalizing init with
  | nil => simp
  | cons a t ih => simp [hF, ih, add_assoc]

/-- Per-level profit contribution of `calculate_signal_profit` for levels
`1..highest_tp` (the body of the loop at lines 95-114, written as a
function of the loop index). -/
def levelContrib (signal : OptSignal) (strategy : List ℚ) (i : ℕ) : ℚ :=
  match optTp signal (i + 1) with
  | none => 0
  | some tpv =>
    if tpv = 0 then 0
    else
      |tpv - signal.entry_price| / signal.entry_price * 100 * 500 *
        strategy.getD i 0 * (riskPercentOpt signal.risk_level / 100)

lemma calculate_signal_profit_eq_sum (signal : OptSignal) (strategy : List ℚ)
    (h1 : highestTp signal.tps_hit ≠ 0) (h2 : signal.entry_price ≠ 0) :
    calculate_signal_profit signal strategy =
      ((List.range (highestTp signal.tps_hit)).map (levelContrib signal strategy)).sum := by
  unfold calculate_signal_profit
  rw [if_neg h1, if_neg h2]
  rw [foldl_shift_of_eq _ (levelContrib signal strategy) ?hF, zero_add]
  case hF =>
    intro acc i
    unfold levelContrib
    cases optTp signal (i + 1) with
    | none => simp
    | some tpv =>
      by_cases htp : tpv = 0 <;> simp [htp]

/-! ## Claim C2 — stop-loss outcome always returns minus the risk percentage -/

/-- Fixture: optimizer signal with no TPs hit and HIGH risk. -/
def sigC2 : OptSignal :=
  { entry_price := 1, risk_level := some "HIGH",
    tp1 := none, tp2 := none, tp3 := none, tp4 := none, tp5 := none, tp6 := none,
    tps_hit := [] }

/-- Fixture: dashboard row with no TPs hit and absent risk level. -/
def rowC2 : HistoryRow :=
  { symbol := "EURUSD", action := "SELL", entry_price := some 1, stop_loss := some 2,
    tp1 := none, tp2 := none, tp3 := none, tp4 := none, tp5 := none, tp6 := none,
    risk_level := none, tp_hits := [] }

/-- C2: for every signal whose set of hit TPs is empty, both evaluators
return `profit_percent = -risk_percent` (LOW → -1, MEDIUM → -2, HIGH → -3
via the risk mappings), independently of the strategy supplied. -/
theorem sl_outcome_profit_is_minus_risk (s : OptSignal) (strat : List ℚ) (r : HistoryRow)
    (hs : s.tps_hit = []) (hr : r.tp_hits = []) :
    calculate_signal_profit s strat = -(riskPercentOpt s.risk_level)
    ∧ (processRow r).profit_percent = -(riskPercentRow r.risk_level)
    ∧ riskPercentOpt (some "LOW") = 1 ∧ riskPercentOpt (some "MEDIUM") = 2
    ∧ riskPercentOpt (some "HIGH") = 3 ∧ riskPercentRow (some "LOW") = 1
    ∧ riskPercentRow (some "MEDIUM") = 2 ∧ riskPercentRow (some "HIGH") = 3 := by
  refine ⟨?_, ?_, by norm_num +decide [riskPercentOpt], by norm_num +decide [riskPercentOpt],
    by norm_num +decide [riskPercentOpt], by norm_num +decide [riskPercentRow],
    by norm_num +decide [riskPercentRow], by norm_num +decide [riskPercentRow]⟩
  · unfold calculate_signal_profit
    rw [hs]
    simp [highestTp]
  · rcases riskPercentRow_cases r.risk_level with h | h | h <;>
      norm_num +decide [processRow, hr, highestTp, h, roundTo]

/-- Witness for C2 at concrete inputs. -/
theorem sl_outcome_profit_is_minus_risk_witness :
    calculate_signal_profit sigC2 default_strategy = -3
    ∧ (processRow rowC2).profit_percent = -2 := by
  have h := sl_outcome_profit_is_minus_risk sigC2 default_strategy rowC2 rfl rfl
  constructor
  · rw [h.1]
    norm_num +decide [sigC2, riskPercentOpt]
  · rw [h.2.1]
    norm_num +decide [rowC2, riskPercentRow]

/-! ## Claim C3 — concrete XAUUSD TP1 scenario -/

/-- Fixture: the spec's concrete scenario as a dashboard row. -/
def rowC3 : HistoryRow :=
  { symbol := "XAUUSD", action := "BUY", entry_price := some 2000, stop_loss := none,
    tp1 := some 2010, tp2 := none, tp3 := none, tp4 := none, tp5 := none, tp6 := none,
    risk_level := some "MEDIUM", tp_hits := [1] }

/-- Fixture: the spec's concrete scenario as an optimizer signal. -/
def sigC3 : OptSignal :=
  { entry_price := 2000, risk_level := some "MEDIUM",
    tp1 := some 2010, tp2 := none, tp3 := none, tp4 := none, tp5 := none, tp6 := none,
    tps_hit := [1] }

/-- C3: signal `BUY XAUUSD`, entry 2000, tp1 = 2010, highest_tp = 1,
MEDIUM risk, default strategy `[0.5,0.2,0.1,0.1,0.1,0]`: the evaluator
returns `profit_percent = 2.5` and `pips = 100.0` (and the optimizer's
per-signal profit agrees). -/
theorem xauusd_tp1_scenario :
    (processRow rowC3).profit_percent = 5/2
    ∧ (processRow rowC3).pips = 100
    ∧ calculate_signal_profit sigC3 default_strategy = 5/2 := by
  refine ⟨?_, ?_, ?_⟩ <;>
    norm_num +decide [processRow, rowC3, highestTp, rowTp, optVal, truthyQ, riskPercentRow,
      pip_multiplier, dashPips, breakdownRows, partialExitFrac, roundTo,
      calculate_signal_profit, sigC3, optTp, riskPercentOpt, default_strategy,
      List.range_succ, List.getD]

/-! ## Claim C5 — improvement reporting when the baseline P&L is zero -/

/-- C5 counterexample: with a baseline portfolio P&L of exactly 0 and a
candidate P&L of 5, the optimizer's improvement expression (line 291)
evaluates to the number 0 — a computed numeric value, not an
undefined/non-numeric report as the claim demands. -/
theorem improvement_at_zero_baseline_counterexample :
    improvement 5 0 = 0 := by
  simp [improvement]

/-- C5 amended: whenever the baseline P&L is exactly zero, the reported
improvement percentage is the number 0 (for every candidate P&L). -/
theorem improvement_at_zero_baseline_is_zero (pl : ℚ) : improvement pl 0 = 0 := by
  simp [improvement]

/-! ## Claim C7 — pip multiplier determined by priority-ordered substring match -/

/-- C7: for every symbol string the evaluator's pip multiplier agrees with
the spec's priority-ordered classification: gold-family → 0.10,
Bitcoin-family → 1.0, Nasdaq-100-family → 1.0, JPY-quoted → 0.01,
all other symbols → 0.0001. -/
theorem pip_multiplier_classification :
    (∀ symbol : String, pip_multiplier symbol = pipSize (classify symbol))
    ∧ pipSize InstrumentClass.metal = 1/10
    ∧ pipSize InstrumentClass.crypto = 1
    ∧ pipSize InstrumentClass.index = 1
    ∧ pipSize InstrumentClass.jpyForex = 1/100
    ∧ pipSize InstrumentClass.otherForex = 1/10000 := by
  refine ⟨fun symbol => ?_, rfl, rfl, rfl, rfl, rfl⟩
  unfold pip_multiplier classify
  split_ifs <;> rfl

/-! ## Claim C10 — unrecognized risk levels fall back to MEDIUM (2.0) -/

/-- C10: any `risk_level` other than the exact strings `LOW` and `HIGH` —
absent, `MEDIUM`, empty, or malformed — maps to the MEDIUM risk percentage
2.0 in both evaluators. -/
theorem unknown_risk_level_defaults_medium :
    (∀ rl : Option String, rl ≠ some "LOW" → rl ≠ some "HIGH" → riskPercentOpt rl = 2)
    ∧ (∀ rl : Option String, rl ≠ some "LOW" → rl ≠ some "HIGH" → riskPercentRow rl = 2) := by
  constructor
  · intro rl h1 h2
    unfold riskPercentOpt
    rw [if_neg h1]
    by_cases hm : rl = some "MEDIUM"
    · rw [if_pos hm]
    · rw [if_neg hm, if_neg h2]
  · intro rl h1 h2
    cases rl with
    | none => simp [riskPercentRow]
    | some s =>
      by_cases h0 : s = ""
      · simp [riskPercentRow, h0]
      · have hL : s ≠ "LOW" := fun hh => h1 (by rw [hh])
        have hH : s ≠ "HIGH" := fun hh => h2 (by rw [hh])
        simp [riskPercentRow, h0, hL, hH]

/-- Witness for C10 at a malformed risk level string. -/
theorem unknown_risk_level_defaults_medium_witness :
    riskPercentOpt (some "EXTREME") = 2 ∧ riskPercentRow (some "EXTREME") = 2 :=
  ⟨unknown_risk_level_defaults_medium.1 (some "EXTREME") (by decide) (by decide),
   unknown_risk_level_defaults_medium.2 (some "EXTREME") (by decide) (by decide)⟩

/-! ## Claim C4 — no InvalidStrategy rejection exists in the evaluator -/

/-- Fixture: a TP1-hit gold signal used to exercise the evaluator with an
invalid strategy. -/
def sigC4 : OptSignal :=
  { entry_price := 2000, risk_level := some "MEDIUM",
    tp1 := some 2010, tp2 := none, tp3 := none, tp4 := none, tp5 := none, tp6 := none,
    tps_hit := [1] }

/-- C4 counterexample: the strategy `[1,1,1,1,1,1]` has fraction sum 6 ≠ 1,
yet `calculate_signal_profit` returns the numeric result 5 for it — there
is no InvalidStrategy rejection anywhere in the evaluator
(`src/optimize_exit_strategy.py` lines 66-116 contain no sum check). -/
theorem no_strategy_validation_counterexample :
    (([1, 1, 1, 1, 1, 1] : List ℚ).sum ≠ 1)
    ∧ calculate_signal_profit sigC4 [1, 1, 1, 1, 1, 1] = 5 := by
  constructor
  · norm_num
  · norm_num +decide [calculate_signal_profit, sigC4, highestTp, optTp, riskPercentOpt,
      List.range_succ, List.getD]

/-- C4 amended: the evaluator performs no strategy validation at all: for
every strategy list — whether or not its fractions sum to 1 — it returns
the numeric profit obtained by applying the given fractions level by
level. -/
theorem profit_computed_for_any_strategy (signal : OptSignal) (strategy : List ℚ)
    (h1 : 1 ≤ highestTp signal.tps_hit) (h2 : signal.entry_price ≠ 0) :
    calculate_signal_profit signal strategy =
      ((List.range (highestTp signal.tps_hit)).map (levelContrib signal strategy)).sum :=
  calculate_signal_profit_eq_sum signal strategy (by omega) h2

/-- Witness for C4 amended, instantiated at the invalid strategy
`[1,1,1,1,1,1]`. -/
theorem profit_computed_for_any_strategy_witness :
    1 ≤ highestTp sigC4.tps_hit ∧ sigC4.entry_price ≠ 0
    ∧ calculate_signal_profit sigC4 [1, 1, 1, 1, 1, 1] =
      ((List.range (highestTp sigC4.tps_hit)).map (levelContrib sigC4 [1, 1, 1, 1, 1, 1])).sum :=
  ⟨by decide, by norm_num [sigC4],
   profit_computed_for_any_strategy sigC4 [1, 1, 1, 1, 1, 1] (by decide) (by norm_num [sigC4])⟩

/-! ## Claim C8 — zero/absent entry price short-circuits to a zero result -/

/-- Fixture: dashboard row with a TP1 hit but an absent entry price. -/
def rowC8 : HistoryRow :=
  { symbol := "EURUSD", action := "BUY", entry_price := none, stop_loss := none,
    tp1 := some (6/5), tp2 := none, tp3 := none, tp4 := none, tp5 := none, tp6 := none,
    risk_level := some "MEDIUM", tp_hits := [1] }

/-- Fixture: optimizer signal with a TP1 hit and a zero entry price. -/
def sigC8 : OptSignal :=
  { entry_price := 0, risk_level := some "MEDIUM",
    tp1 := some (6/5), tp2 := none, tp3 := none, tp4 := none, tp5 := none, tp6 := none,
    tps_hit := [1] }

/-- C8: for every signal with at least one TP hit whose entry price is
zero or absent (Python-falsy), the dashboard evaluator returns
`profit_percent = 0` and `pips = 0`, and the optimizer evaluator returns
0 for a zero entry price — no division by zero occurs in the embedding
(all results are total). The TP-level bound `≤ 6` is the spec's data
model, under which the row lookups `row['tp{n}']` are defined. -/
theorem missing_entry_zero_result :
    (∀ r : HistoryRow, (∀ t ∈ r.tp_hits, 1 ≤ t ∧ t ≤ 6) → 1 ≤ highestTp r.tp_hits →
        truthyQ r.entry_price = false →
        (processRow r).profit_percent = 0 ∧ (processRow r).pips = 0)
    ∧ (∀ (s : OptSignal) (strat : List ℚ), 1 ≤ highestTp s.tps_hit → s.entry_price = 0 →
        calculate_signal_profit s strat = 0) := by
  constructor
  · intro r hb h1 hent
    have h0 : highestTp r.tp_hits ≠ 0 := by omega
    constructor
    · simp [processRow, h0, hent]
    · simp [processRow, h0, hent]
  · intro s strat h1 hent
    have h0 : highestTp s.tps_hit ≠ 0 := by omega
    simp [calculate_signal_profit, h0, hent]

/-- Witness for C8 at concrete inputs. -/
theorem missing_entry_zero_result_witness :
    ((processRow rowC8).profit_percent = 0 ∧ (processRow rowC8).pips = 0)
    ∧ calculate_signal_profit sigC8 default_strategy = 0 :=
  ⟨missing_entry_zero_result.1 rowC8 (by decide) (by decide) rfl,
   missing_entry_zero_result.2 sigC8 default_strategy (by decide) rfl⟩

/-! ## Claim C9 — TP outcomes never produce a negative profit -/

lemma ite_roundTo_nonneg (p : ℚ) (hp : 0 ≤ p) :
    0 ≤ (if p = 0 then (0 : ℚ) else roundTo 2 p) := by
  split_ifs
  · exact le_refl 0
  · exact roundTo_nonneg 2 p hp

/-- C9: because price moves enter the formulas through absolute values,
a signal with at least one TP hit can never yield a negative profit —
in the optimizer for every strategy with non-negative fractions, and in
the dashboard evaluator unconditionally — given the data-model constraint
that the entry price is non-negative. -/
theorem tp_outcome_profit_nonneg :
    (∀ (s : OptSignal) (strat : List ℚ), 0 ≤ s.entry_price → (∀ f ∈ strat, 0 ≤ f) →
        1 ≤ highestTp s.tps_hit → 0 ≤ calculate_signal_profit s strat)
    ∧ (∀ r : HistoryRow, 0 ≤ optVal r.entry_price → 1 ≤ highestTp r.tp_hits →
        0 ≤ (processRow r).profit_percent) := by
  constructor
  · intro s strat hent hstrat h1
    have h0 : highestTp s.tps_hit ≠ 0 := by omega
    by_cases hz : s.entry_price = 0
    · simp [calculate_signal_profit, h0, hz]
    · rw [calculate_signal_profit_eq_sum s strat h0 hz]
      apply List.sum_nonneg
      intro x hx
      simp only [List.mem_map] at hx
      obtain ⟨i, -, rfl⟩ := hx
      unfold levelContrib
      cases hopt : optTp s (i + 1) with
      | none => simp
      | some tpv =>
        dsimp only
        by_cases htv : tpv = 0
        · simp [htv]
        · rw [if_neg htv]
          have hep : 0 < s.entry_price := lt_of_le_of_ne hent (Ne.symm hz)
          have h2 := getD_nonneg strat hstrat i
          have h3 := riskPercentOpt_pos s.risk_level
          have hlm : 0 ≤ |tpv - s.entry_price| / s.entry_price * 100 * 500 :=
            mul_nonneg (mul_nonneg (div_nonneg (abs_nonneg _) hep.le) (by norm_num)) (by norm_num)
          exact mul_nonneg (mul_nonneg hlm h2) (div_nonneg h3.le (by norm_num))
  · intro r hent h1
    have h0 : highestTp r.tp_hits ≠ 0 := by omega
    simp only [processRow, h0, if_false, reduceIte]
    apply ite_roundTo_nonneg
    split_ifs with hc c1 c2 c3 c4 c5 c6 <;> try exact le_refl 0
    all_goals
      rw [Bool.and_eq_true] at hc
      have hen : 0 < optVal r.entry_price :=
        lt_of_le_of_ne hent (Ne.symm (truthyQ_optVal_ne_zero _ hc.2))
      have hrp : 0 ≤ riskPercentRow r.risk_level / 100 :=
        div_nonneg (riskPercentRow_pos r.risk_level).le (by norm_num)
      have hlm : 0 ≤ |optVal (rowTp r (highestTp r.tp_hits)) - optVal r.entry_price| /
          optVal r.entry_price * 100 * 500 :=
        mul_nonneg (mul_nonneg (div_nonneg (abs_nonneg _) hen.le) (by norm_num)) (by norm_num)
      first
      | exact mul_nonneg (mul_nonneg hlm (by norm_num)) hrp
      | exact mul_nonneg hlm hrp

/-- Fixture: BUY gold row with TP levels 1 and 2 hit, for the C9 witness. -/
def rowC9 : HistoryRow :=
  { symbol := "XAUUSD", action := "BUY", entry_price := some 2000, stop_loss := none,
    tp1 := some 2010, tp2 := some 2020, tp3 := none, tp4 := none, tp5 := none, tp6 := none,
    risk_level := some "LOW", tp_hits := [1, 2] }

/-- Fixture: optimizer signal for the C9 witness. -/
def sigC9 : OptSignal :=
  { entry_price := 2000, risk_level := some "LOW",
    tp1 := some 2010, tp2 := some 2020, tp3 := none, tp4 := none, tp5 := none, tp6 := none,
    tps_hit := [1, 2] }

/-- Witness for C9 at concrete inputs. -/
theorem tp_outcome_profit_nonneg_witness :
    0 ≤ calculate_signal_profit sigC9 default_strategy
    ∧ 0 ≤ (processRow rowC9).profit_percent :=
  ⟨tp_outcome_profit_nonneg.1 sigC9 default_strategy (by norm_num [sigC9])
      (by intro f hf; fin_cases hf <;> norm_num) (by decide),
   tp_outcome_profit_nonneg.2 rowC9 (by norm_num [rowC9, optVal]) (by decide)⟩

/-! ## Claim C1 — does the `tp_breakdown` sum equal `profit_percent`? -/

/-- Fixture: BUY gold row with TP1 = 2010 and TP2 = 2020 both hit.
The signal-level profit applies the cumulative fraction 0.70 to the TP2
move (7.00), while the breakdown sums per-level contributions
(2.50 + 2.00 = 4.50). -/
def rowC1 : HistoryRow :=
  { symbol := "XAUUSD", action := "BUY", entry_price := some 2000, stop_loss := none,
    tp1 := some 2010, tp2 := some 2020, tp3 := none, tp4 := none, tp5 := none, tp6 := none,
    risk_level := some "MEDIUM", tp_hits := [1, 2] }

/-- C1 counterexample: for a signal with `highest_tp = 2` the breakdown
rows sum to 4.5 while the reported `profit_percent` is 7.0 — far outside
any 1e-9 relative tolerance. The evaluator computes the signal-level
profit from the highest TP's price move with a cumulative exit fraction
(lines 884-916), but the breakdown applies each level's fraction to that
level's own move (lines 918-961); the two only agree when every recorded
TP price equals the exit price. -/
theorem tp_breakdown_sum_counterexample :
    ((processRow rowC1).tp_breakdown.map (fun b => b.profit_percent)).sum = 9/2
    ∧ (processRow rowC1).profit_percent = 7
    ∧ ¬ (|((processRow rowC1).tp_breakdown.map (fun b => b.profit_percent)).sum
            - (processRow rowC1).profit_percent|
          ≤ 1 / (10 : ℚ)^9 * |(processRow rowC1).profit_percent|) := by
  have h1 : ((processRow rowC1).tp_breakdown.map (fun b => b.profit_percent)).sum = 9/2 := by
    norm_num +decide [processRow, rowC1, breakdownRows, rowTp, optVal, truthyQ,
      riskPercentRow, partialExitFrac, roundTo, pip_multiplier, dashPips,
      show highestTp [1, 2] = 2 from rfl, show List.range 2 = [0, 1] from rfl, Function.comp,
      List.map_cons, List.map_nil, List.filterMap_cons, List.filterMap_nil,
      List.sum_cons, List.sum_nil]
  have h2 : (processRow rowC1).profit_percent = 7 := by
    norm_num +decide [processRow, rowC1, rowTp, optVal, truthyQ, riskPercentRow,
      roundTo, breakdownRows, partialExitFrac, pip_multiplier, dashPips,
      show highestTp [1, 2] = 2 from rfl, show List.range 2 = [0, 1] from rfl, Function.comp,
      List.map_cons, List.map_nil, List.filterMap_cons, List.filterMap_nil,
      List.sum_cons, List.sum_nil]
  refine ⟨h1, h2, ?_⟩
  rw [h1, h2]
  have habs : |(5 : ℚ)/2| = 5/2 := abs_of_pos (by norm_num)
  norm_num [habs]

/-- C1 amended: the sum of the `tp_breakdown` profit contributions equals
the signal's reported `profit_percent` exactly when `highest_tp = 1`
(there the cumulative fraction 0.50 applied to the exit move and the
level-1 fraction 0.50 applied to the TP1 move coincide); for
`highest_tp ≥ 2` they differ in general, as the counterexample shows. -/
theorem tp_breakdown_sum_eq_profit_of_highest_tp_one (r : HistoryRow)
    (h : highestTp r.tp_hits = 1) :
    ((processRow r).tp_breakdown.map (fun b => b.profit_percent)).sum
      = (processRow r).profit_percent := by
  cases ht1 : r.tp1 with
  | none =>
    simp [processRow, h, breakdownRows, rowTp, ht1, truthyQ,
      show List.range 1 = [0] from rfl, Function.comp]
  | some p =>
    by_cases hp : p = 0
    · simp [processRow, h, breakdownRows, rowTp, ht1, hp, truthyQ,
        show List.range 1 = [0] from rfl, Function.comp]
    · by_cases he : truthyQ r.entry_price = true
      · obtain ⟨e, he1, he2⟩ := (truthyQ_iff _).mp he
        simp [processRow, h, breakdownRows, rowTp, ht1, he1, hp, he2, optVal, truthyQ,
          partialExitFrac, show List.range 1 = [0] from rfl, Function.comp]
        by_cases hc : p - e = 0 ∨ riskPercentRow r.risk_level = 0
        · rw [if_pos hc]
          rcases hc with hc | hc <;> rw [hc] <;> simp [roundTo_zero]
        · rw [if_neg hc]
      · have he' : truthyQ r.entry_price = false := by
          cases hq : truthyQ r.entry_price
          · rfl
          · exact absurd hq he
        simp [processRow, h, breakdownRows, rowTp, ht1, hp, he', optVal,
          partialExitFrac, show List.range 1 = [0] from rfl, Function.comp, roundTo_zero]

/-- Fixture: SELL JPY-pair row with only TP1 hit, for the C1 witness. -/
def rowC1w : HistoryRow :=
  { symbol := "USDJPY", action := "SELL", entry_price := some 150, stop_loss := none,
    tp1 := some 149, tp2 := none, tp3 := none, tp4 := none, tp5 := none, tp6 := none,
    risk_level := some "LOW", tp_hits := [1] }

/-- Witness for the C1 amended theorem at a concrete TP1-only row. -/
theorem tp_breakdown_sum_eq_profit_witness :
    ((processRow rowC1w).tp_breakdown.map (fun b => b.profit_percent)).sum
      = (processRow rowC1w).profit_percent :=
  tp_breakdown_sum_eq_profit_of_highest_tp_one rowC1w (by decide)

/-! ## Claim C6 — exhaustive strategy generation at step 5

The candidate count is settled by closed-form counting lemmas, one per
loop level of `generate_strategies`: `lvl5` counts the innermost loop
(at most one completion), and each outer level sums the closed form of
the level below over the 21 candidate percentages. -/

lemma mem_ite_singleton {α : Type} {c : Prop} [Decidable c] {v x : α} :
    (x ∈ if c then [v] else []) ↔ c ∧ x = v := by
  split_ifs with h <;> simp [h]

lemma mem_percentages5 {e : ℕ} (he : e ∈ percentages 5) : e % 5 = 0 ∧ e ≤ 100 := by
  simp only [percentages, List.mem_map, List.mem_range] at he
  obtain ⟨i, hi, rfl⟩ := he
  omega

lemma percentages5_eq :
    percentages 5 = [0, 5, 10, 15, 20, 25, 30, 35, 40, 45, 50,
      55, 60, 65, 70, 75, 80, 85, 90, 95, 100] := rfl

lemma lvl5 (s : ℕ) (X : ℕ → List ℚ) :
    ((percentages 5).flatMap fun e => if s + e = 100 then [X e] else []).length
      = if s ≤ 100 ∧ s % 5 = 0 then 1 else 0 := by
  rw [List.length_flatMap]
  simp only [Function.comp_def, apply_ite List.length, List.length_singleton, List.length_nil]
  by_cases h : s ≤ 100 ∧ s % 5 = 0
  · rw [if_pos h]
    obtain ⟨k, hk, rfl⟩ : ∃ k, k ≤ 20 ∧ s = 5 * k := ⟨s / 5, by omega, by omega⟩
    rw [percentages5_eq]
    interval_cases k <;> decide
  · rw [if_neg h]
    apply List.sum_eq_zero
    intro x hx
    simp only [List.mem_map] at hx
    obtain ⟨e, he, rfl⟩ := hx
    have h5 := mem_percentages5 he
    rw [ite_eq_right_iff]
    intro hc
    omega

lemma lvl4 (s : ℕ) (X : ℕ → ℕ → List ℚ) :
    ((percentages 5).flatMap fun d => (percentages 5).flatMap fun e =>
        if s + d + e = 100 then [X d e] else []).length
      = if s ≤ 100 ∧ s % 5 = 0 then (100 - s) / 5 + 1 else 0 := by
  rw [List.length_flatMap]
  simp only [Function.comp_def, lvl5]
  by_cases h : s ≤ 100 ∧ s % 5 = 0
  · rw [if_pos h]
    obtain ⟨k, hk, rfl⟩ : ∃ k, k ≤ 20 ∧ s = 5 * k := ⟨s / 5, by omega, by omega⟩
    rw [percentages5_eq]
    interval_cases k <;> decide
  · rw [if_neg h]
    apply List.sum_eq_zero
    intro x hx
    simp only [List.mem_map] at hx
    obtain ⟨d, hd, rfl⟩ := hx
    have h5 := mem_percentages5 hd
    rw [ite_eq_right_iff]
    intro hc
    omega

lemma lvl3 (s : ℕ) (X : ℕ → ℕ → ℕ → List ℚ) :
    ((percentages 5).flatMap fun c => (percentages 5).flatMap fun d =>
        (percentages 5).flatMap fun e =>
          if s + c + d + e = 100 then [X c d e] else []).length
      = if s ≤ 100 ∧ s % 5 = 0 then
          ((100 - s) / 5 + 1) * ((100 - s) / 5 + 2) / 2 else 0 := by
  rw [List.length_flatMap]
  simp only [Function.comp_def, lvl4]
  by_cases h : s ≤ 100 ∧ s % 5 = 0
  · rw [if_pos h]
    obtain ⟨k, hk, rfl⟩ : ∃ k, k ≤ 20 ∧ s = 5 * k := ⟨s / 5, by omega, by omega⟩
    rw [percentages5_eq]
    interval_cases k <;> decide
  · rw [if_neg h]
    apply List.sum_eq_zero
    intro x hx
    simp only [List.mem_map] at hx
    obtain ⟨c, hc, rfl⟩ := hx
    have h5 := mem_percentages5 hc
    rw [ite_eq_right_iff]
    intro hcc
    omega

lemma lvl2 (s : ℕ) (X : ℕ → ℕ → ℕ → ℕ → List ℚ) :
    ((percentages 5).flatMap fun b => (percentages 5).flatMap fun c =>
        (percentages 5).flatMap fun d => (percentages 5).flatMap fun e =>
          if s + b + c + d + e = 100 then [X b c d e] else []).length
      = if s ≤ 100 ∧ s % 5 = 0 then
          ((100 - s) / 5 + 1) * ((100 - s) / 5 + 2) * ((100 - s) / 5 + 3) / 6 else 0 := by
  rw [List.length_flatMap]
  simp only [Function.comp_def, lvl3]
  by_cases h : s ≤ 100 ∧ s % 5 = 0
  · rw [if_pos h]
    obtain ⟨k, hk, rfl⟩ : ∃ k, k ≤ 20 ∧ s = 5 * k := ⟨s / 5, by omega, by omega⟩
    rw [percentages5_eq]
    interval_cases k <;> decide
  · rw [if_neg h]
    apply List.sum_eq_zero
    intro x hx
    simp only [List.mem_map] at hx
    obtain ⟨b, hb, rfl⟩ := hx
    have h5 := mem_percentages5 hb
    rw [ite_eq_right_iff]
    intro hcc
    omega

lemma gen5_length : (generate_strategies 5 false).length = 10626 := by
  unfold generate_strategies
  rw [if_pos rfl, List.length_flatMap]
  simp only [Function.comp_def, lvl2]
  rw [percentages5_eq]
  decide

lemma div100_inj {m n : ℕ} (h : (m : ℚ)/100 = (n : ℚ)/100) : m = n := by
  field_simp at h
  exact_mod_cast h

lemma mem_gen5 (x : List ℚ) :
    x ∈ generate_strategies 5 false ↔
      ∃ a ∈ percentages 5, ∃ b ∈ percentages 5, ∃ c ∈ percentages 5,
        ∃ d ∈ percentages 5, ∃ e ∈ percentages 5, a + b + c + d + e = 100 ∧
          x = [(a : ℚ)/100, (b : ℚ)/100, (c : ℚ)/100, (d : ℚ)/100, (e : ℚ)/100, 0] := by
  unfold generate_strategies
  rw [if_pos rfl]
  simp only [List.mem_flatMap, mem_ite_singleton]

lemma gen5_nodup : (generate_strategies 5 false).Nodup := by
  have hps : (percentages 5).Nodup := by decide
  unfold generate_strategies
  rw [if_pos rfl]
  refine List.nodup_flatMap.mpr ⟨fun a ha => ?_, ?_⟩
  · refine List.nodup_flatMap.mpr ⟨fun b hb => ?_, ?_⟩
    · refine List.nodup_flatMap.mpr ⟨fun c hc => ?_, ?_⟩
      · refine List.nodup_flatMap.mpr ⟨fun d hd => ?_, ?_⟩
        · refine List.nodup_flatMap.mpr ⟨fun e he => ?_, ?_⟩
          · split_ifs <;> simp
          · refine List.Pairwise.imp ?_ hps
            intro e1 e2 hne x hx1 hx2
            rw [mem_ite_singleton] at hx1 hx2
            obtain ⟨-, rfl⟩ := hx1
            obtain ⟨-, hx⟩ := hx2
            simp only [List.cons.injEq, and_true, true_and] at hx
            exact hne (div100_inj hx)
        · refine List.Pairwise.imp ?_ hps
          intro d1 d2 hne x hx1 hx2
          simp only [List.mem_flatMap, mem_ite_singleton] at hx1 hx2
          obtain ⟨e1, -, -, rfl⟩ := hx1
          obtain ⟨e2, -, -, hx⟩ := hx2
          simp only [List.cons.injEq, and_true, true_and] at hx
          exact hne (div100_inj hx.1)
      · refine List.Pairwise.imp ?_ hps
        intro c1 c2 hne x hx1 hx2
        simp only [List.mem_flatMap, mem_ite_singleton] at hx1 hx2
        obtain ⟨d1, -, e1, -, -, rfl⟩ := hx1
        obtain ⟨d2, -, e2, -, -, hx⟩ := hx2
        simp only [List.cons.injEq, and_true, true_and] at hx
        exact hne (div100_inj hx.1)
    · refine List.Pairwise.imp ?_ hps
      intro b1 b2 hne x hx1 hx2
      simp only [List.mem_flatMap, mem_ite_singleton] at hx1 hx2
      obtain ⟨c1, -, d1, -, e1, -, -, rfl⟩ := hx1
      obtain ⟨c2, -, d2, -, e2, -, -, hx⟩ := hx2
      simp only [List.cons.injEq, and_true, true_and] at hx
      exact hne (div100_inj hx.1)
  · refine List.Pairwise.imp ?_ hps
    intro a1 a2 hne x hx1 hx2
    simp only [List.mem_flatMap, mem_ite_singleton] at hx1 hx2
    obtain ⟨b1, -, c1, -, d1, -, e1, -, -, rfl⟩ := hx1
    obtain ⟨b2, -, c2, -, d2, -, e2, -, -, hx⟩ := hx2
    simp only [List.cons.injEq, and_true, true_and] at hx
    exact hne (div100_inj hx.1)

/-- C6: strategy generation with `step = 5` and the sixth-slot flag off
produces exactly 10,626 pairwise-distinct candidates; every candidate is a
six-element list whose sixth fraction is 0 and whose fractions are integer
percentages summing to exactly 100 (so the rationals sum to exactly 1). -/
theorem generate_strategies_step5_count :
    (generate_strategies 5 false).length = 10626
    ∧ (generate_strategies 5 false).Nodup
    ∧ ∀ st ∈ generate_strategies 5 false,
        st.length = 6 ∧ st.getD 5 0 = 0 ∧ st.sum = 1
        ∧ ∃ a b c d e : ℕ, a + b + c + d + e = 100
            ∧ st = [(a : ℚ)/100, (b : ℚ)/100, (c : ℚ)/100, (d : ℚ)/100, (e : ℚ)/100, 0] := by
  refine ⟨gen5_length, gen5_nodup, ?_⟩
  intro st hst
  obtain ⟨a, ha, b, hb, c, hc, d, hd, e, he, hsum, rfl⟩ := (mem_gen5 st).mp hst
  refine ⟨rfl, rfl, ?_, a, b, c, d, e, hsum, rfl⟩
  have hq : (a : ℚ) + b + c + d + e = 100 := by exact_mod_cast hsum
  have hsm : (a : ℚ)/100 + ((b : ℚ)/100 + ((c : ℚ)/100 + ((d : ℚ)/100 + ((e : ℚ)/100 + (0 + 0)))))
      = ((a : ℚ) + b + c + d + e) / 100 := by ring
  simp only [List.sum_cons, List.sum_nil]
  rw [hsm, hq]
  norm_num

/-- Witness for C6 at the concrete candidate `[0,0,0,0,1,0]`. -/
theorem generate_strategies_step5_count_witness :
    ([0, 0, 0, 0, 1, 0] : List ℚ).length = 6
    ∧ ([0, 0, 0, 0, 1, 0] : List ℚ).getD 5 0 = 0
    ∧ ([0, 0, 0, 0, 1, 0] : List ℚ).sum = 1
    ∧ ∃ a b c d e : ℕ, a + b + c + d + e = 100
        ∧ ([0, 0, 0, 0, 1, 0] : List ℚ)
          = [(a : ℚ)/100, (b : ℚ)/100, (c : ℚ)/100, (d : ℚ)/100, (e : ℚ)/100, 0] :=
  generate_strategies_step5_count.2.2 [0, 0, 0, 0, 1, 0] (by
    rw [mem_gen5]
    exact ⟨0, by decide, 0, by decide, 0, by decide, 0, by decide, 100, by decide,
      by norm_num, by norm_num⟩)
